import Mathlib

/-!
Verification of the settings reconciliation engine of the `ghm` CLI
(`src/ghm/repos.py`, `src/ghm/main.py`): a shallow embedding of the
`RepoSettings` snapshot model, the single-repository reconciliation
`update_repo_settings`, the batch loop `bulk_update_repos`, and the
`update-merge` command's configuration check, together with theorems
about the reconciliation contract.
-/

namespace Ghm

/-- Python truthiness of an `Optional[str]` value: `None` and the empty
string are falsy, every other string is truthy.  This is the test applied
by `if squash_title and ...` and by `any([...])` in the source. -/
def truthy : Option String → Bool
  | none => false
  | some s => !(s == "")

/-- `RepoSettings` (repos.py, lines 20-34): the immutable snapshot of one
repository's merge configuration. -/
structure RepoSettings where
  name : String
  full_name : String
  is_archived : Bool
  is_fork : Bool
  allow_squash_merge : Bool
  squash_merge_commit_title : Option String
  squash_merge_commit_message : Option String
  allow_merge_commit : Bool
  merge_commit_title : Option String
  merge_commit_message : Option String
  allow_rebase_merge : Bool
  deriving DecidableEq, Repr

/-- `RepoSettings.needs_squash_update` (repos.py, lines 53-62).  The current
fields are `Optional[str]`; the Python comparison `self.x != title` with a
plain string `title` is `x ≠ some title` here. -/
def RepoSettings.needs_squash_update (s : RepoSettings)
    (title : String) (message : String) : Bool :=
  if !s.allow_squash_merge then false
  else s.squash_merge_commit_title != some title
    || s.squash_merge_commit_message != some message

/-- `RepoSettings.needs_merge_update` (repos.py, lines 64-70). -/
def RepoSettings.needs_merge_update (s : RepoSettings)
    (title : String) (message : String) : Bool :=
  if !s.allow_merge_commit then false
  else s.merge_commit_title != some title
    || s.merge_commit_message != some message

/-- The ChangeSet built by `update_repo_settings` (repos.py, lines 300-317):
the `changes` dict can hold at most these four keys; a `none` field means the
key is absent. -/
structure ChangeSet where
  squash_merge_commit_title : Option String
  squash_merge_commit_message : Option String
  merge_commit_title : Option String
  merge_commit_message : Option String
  deriving DecidableEq, Repr

/-- `not changes` in Python: the dict is empty. -/
def ChangeSet.isEmpty (c : ChangeSet) : Bool :=
  c.squash_merge_commit_title.isNone && c.squash_merge_commit_message.isNone
    && c.merge_commit_title.isNone && c.merge_commit_message.isNone

/-- The empty ChangeSet (`changes = {}`). -/
def emptyChangeSet : ChangeSet := ⟨none, none, none, none⟩

/-- The "Determine what needs updating" block of `update_repo_settings`
(repos.py, lines 300-317): each desired field that is truthy, whose merge
method is enabled on the freshly fetched settings, and whose current value
differs from the desired one, contributes an entry. -/
def computeChanges (settings : RepoSettings)
    (squash_title squash_message merge_title merge_message : Option String) :
    ChangeSet :=
  { squash_merge_commit_title :=
      if truthy squash_title && settings.allow_squash_merge then
        if settings.squash_merge_commit_title != squash_title then squash_title
        else none
      else none
    squash_merge_commit_message :=
      if truthy squash_message && settings.allow_squash_merge then
        if settings.squash_merge_commit_message != squash_message then
          squash_message
        else none
      else none
    merge_commit_title :=
      if truthy merge_title && settings.allow_merge_commit then
        if settings.merge_commit_title != merge_title then merge_title
        else none
      else none
    merge_commit_message :=
      if truthy merge_message && settings.allow_merge_commit then
        if settings.merge_commit_message != merge_message then merge_message
        else none
      else none }

/-- Substring containment on character lists, modelling Python's
`pat in s`. -/
def containsSub (pat : List Char) : List Char → Bool
  | [] => pat.isPrefixOf ([] : List Char)
  | c :: t => pat.isPrefixOf (c :: t) || containsSub pat t

/-- `pat in s` for strings (used for the `"404" in error_msg` test,
repos.py line 335). -/
def strContains (s pat : String) : Bool := containsSub pat.toList s.toList

/-- The authenticated client, abstracted: `fetch` is
`get_repo` followed by `RepoSettings.from_repo` (it may raise, carrying the
exception's string), and `edit` is `repo.edit(**changes)` (success, or an
exception whose `str` is the error payload). -/
structure Client where
  fetch : String → Except String RepoSettings
  edit : String → ChangeSet → Except String Unit

/-- The observable result of one `update_repo_settings` call:
`outcome` is `Except.ok b` when the function returns `b` and
`Except.error e` when an uncaught exception `e` propagates out of it;
`editCalls` counts invocations of `repo.edit`; `changes` is the ChangeSet
computed after the fetch (absent when the fetch raised); `failMessage` is
the `error_msg` reported on a caught update failure. -/
structure ReconcileResult where
  outcome : Except String Bool
  editCalls : Nat
  changes : Option ChangeSet
  failMessage : Option String
  deriving Repr

/-- The relabeled message for not-found-class errors
(repos.py, lines 335-338). -/
def notFoundHint : String :=
  "404 Not Found (Check permissions or if target is an organization)"

/-- `update_repo_settings` (repos.py, lines 273-340).  The re-fetch at line
297 is outside any `try`, so an exception there propagates
(`Except.error`); only `repo.edit` is guarded, and a caught failure is
reported as a returned `false` with `error_msg` relabeled when it contains
`"404"`. -/
def update_repo_settings (client : Client) (repo_full_name : String)
    (squash_title squash_message merge_title merge_message : Option String)
    (dry_run : Bool) : ReconcileResult :=
  match client.fetch repo_full_name with
  | Except.error e => ⟨Except.error e, 0, none, none⟩
  | Except.ok settings =>
    let changes := computeChanges settings squash_title squash_message
      merge_title merge_message
    if changes.isEmpty then ⟨Except.ok true, 0, some changes, none⟩
    else if dry_run then ⟨Except.ok true, 0, some changes, none⟩
    else
      match client.edit repo_full_name changes with
      | Except.ok _ => ⟨Except.ok true, 1, some changes, none⟩
      | Except.error e =>
        let error_msg := if strContains e "404" then notFoundHint else e
        ⟨Except.ok false, 1, some changes, some error_msg⟩

/-- The `needs_update` skip test of the batch loop
(repos.py, lines 372-381). -/
def needsUpdateCheck (r : RepoSettings)
    (squash_title squash_message merge_title merge_message : Option String) :
    Bool :=
  ((truthy squash_title || truthy squash_message) && r.allow_squash_merge)
    || ((truthy merge_title || truthy merge_message) && r.allow_merge_commit)

/-- The loop of `bulk_update_repos` with its two counter accumulators
(repos.py, lines 370-398).  An exception raised inside
`update_repo_settings` is uncaught here and propagates (`Except.error`). -/
def bulkGo (client : Client)
    (squash_title squash_message merge_title merge_message : Option String)
    (dry_run : Bool) :
    List RepoSettings → Nat → Nat → Except String (Nat × Nat)
  | [], success_count, total_count => Except.ok (success_count, total_count)
  | r :: rest, success_count, total_count =>
    if !needsUpdateCheck r squash_title squash_message merge_title
        merge_message then
      bulkGo client squash_title squash_message merge_title merge_message
        dry_run rest success_count total_count
    else
      match (update_repo_settings client r.full_name squash_title
          squash_message merge_title merge_message dry_run).outcome with
      | Except.error e => Except.error e
      | Except.ok b =>
        bulkGo client squash_title squash_message merge_title merge_message
          dry_run rest (if b then success_count + 1 else success_count)
          (total_count + 1)

/-- `bulk_update_repos` (repos.py, lines 343-400): returns
`(success_count, total_count)` unless an uncaught exception escapes the
loop. -/
def bulk_update_repos (client : Client) (repos : List RepoSettings)
    (squash_title squash_message merge_title merge_message : Option String)
    (dry_run : Bool) : Except String (Nat × Nat) :=
  bulkGo client squash_title squash_message merge_title merge_message dry_run
    repos 0 0

/-- The configuration check of the `update-merge` command
(main.py, lines 108-113): `not any([squash_title, squash_message,
merge_title, merge_message])` — true means the command prints an error and
exits with code 1 before any network access. -/
def update_merge_no_target
    (squash_title squash_message merge_title merge_message : Option String) :
    Bool :=
  !(truthy squash_title || truthy squash_message || truthy merge_title
    || truthy merge_message)

/-- Modelled from the spec: the remote collaborator
`updateRepository(fullName, partialFields)` (PyGithub's `repo.edit`, not part
of this repository) applies the ChangeSet as a partial patch — each field
named in the ChangeSet takes its new value, every other repository field is
left unchanged (spec section 6 and section 4.2 step 5). -/
def applyChanges (s : RepoSettings) (c : ChangeSet) : RepoSettings :=
  { s with
    squash_merge_commit_title :=
      match c.squash_merge_commit_title with
      | some v => some v
      | none => s.squash_merge_commit_title
    squash_merge_commit_message :=
      match c.squash_merge_commit_message with
      | some v => some v
      | none => s.squash_merge_commit_message
    merge_commit_title :=
      match c.merge_commit_title with
      | some v => some v
      | none => s.merge_commit_title
    merge_commit_message :=
      match c.merge_commit_message with
      | some v => some v
      | none => s.merge_commit_message }

/-- One field of the partial patch: a value named in the ChangeSet replaces
the current value, an absent entry leaves it unchanged. -/
def patchField (newVal old : Option String) : Option String :=
  match newVal with
  | some v => some v
  | none => old

/-! ### Concrete fixtures used in the scenarios -/

/-- Scenario A's repository: squash merge enabled, current squash title
`COMMIT_OR_PR_TITLE`, current squash message `PR_BODY`. -/
def scenarioARepo : RepoSettings :=
  { name := "r", full_name := "o/r", is_archived := false, is_fork := false
    allow_squash_merge := true
    squash_merge_commit_title := some "COMMIT_OR_PR_TITLE"
    squash_merge_commit_message := some "PR_BODY"
    allow_merge_commit := false
    merge_commit_title := none, merge_commit_message := none
    allow_rebase_merge := false }

/-- A client over Scenario A's repository whose update endpoint succeeds. -/
def scenarioAClient : Client :=
  { fetch := fun _ => Except.ok scenarioARepo
    edit := fun _ _ => Except.ok () }

/-- A client whose settings re-fetch raises for repository `o/bad` and
succeeds elsewhere; its update endpoint always succeeds. -/
def fetchFailClient : Client :=
  { fetch := fun n =>
      if n == "o/bad" then Except.error "boom" else Except.ok scenarioARepo
    edit := fun _ _ => Except.ok () }

/-- The catalog snapshot of `o/bad` (squash merge enabled so the batch does
not skip it). -/
def badRepoSnapshot : RepoSettings :=
  { scenarioARepo with name := "bad", full_name := "o/bad" }

/-- The catalog snapshot of a healthy repository. -/
def goodRepoSnapshot : RepoSettings :=
  { scenarioARepo with name := "good", full_name := "o/good" }

/-- A client whose fetch is total but whose update endpoint always fails. -/
def editFailClient : Client :=
  { fetch := fun _ => Except.ok scenarioARepo
    edit := fun _ _ => Except.error "403 Forbidden" }

/-- A repository with both mutable merge methods disabled and rebase
enabled. -/
def bothDisabledRepo : RepoSettings :=
  { name := "d", full_name := "o/d", is_archived := false, is_fork := false
    allow_squash_merge := false
    squash_merge_commit_title := some "COMMIT_OR_PR_TITLE"
    squash_merge_commit_message := some "COMMIT_MESSAGES"
    allow_merge_commit := false
    merge_commit_title := some "MERGE_MESSAGE", merge_commit_message := none
    allow_rebase_merge := true }

/-- The snapshot of a repository that needs a change under desired squash
title `PR_TITLE` and message `PR_BODY`. -/
def repoNeedsChange : RepoSettings :=
  { scenarioARepo with name := "needs", full_name := "o/needs" }

/-- The snapshot of a repository already matching the desired values. -/
def repoMatches : RepoSettings :=
  { scenarioARepo with
    name := "match"
    full_name := "o/match"
    squash_merge_commit_title := some "PR_TITLE" }

/-- A client serving Scenario D's three repositories; updates succeed. -/
def scenarioDClient : Client :=
  { fetch := fun n =>
      if n == "o/needs" then Except.ok repoNeedsChange
      else if n == "o/match" then Except.ok repoMatches
      else Except.ok bothDisabledRepo
    edit := fun _ _ => Except.ok () }

/-- A client serving the state Scenario A's repository is left in after a
successful apply-mode run with desired squash title `PR_TITLE` and message
`PR_BODY`. -/
def scenarioAAfterClient : Client :=
  { fetch := fun _ =>
      Except.ok (if (computeChanges scenarioARepo (some "PR_TITLE")
          (some "PR_BODY") none none).isEmpty then scenarioARepo
        else applyChanges scenarioARepo (computeChanges scenarioARepo
          (some "PR_TITLE") (some "PR_BODY") none none))
    edit := fun _ _ => Except.ok () }

/-- A client whose update endpoint always fails with a not-found-class
error. -/
def notFoundClient : Client :=
  { fetch := fun _ => Except.ok scenarioARepo
    edit := fun _ _ => Except.error "404 Not Found" }

/-! ### Helper lemmas -/

/-- Characterization of one entry of the ChangeSet: the entry holds `some v`
exactly when the desired value is the truthy string `v`, the governing flag
is on, and the current value differs from `v`. -/
theorem fieldEntry_some_iff (desired current : Option String) (en : Bool)
    (v : String) :
    (if truthy desired && en then
      (if current != desired then desired else none) else none) = some v
      ↔ desired = some v ∧ v ≠ "" ∧ en = true ∧ current ≠ some v := by
  cases desired with
  | none => simp [truthy]
  | some w =>
    cases en with
    | false => simp [truthy]
    | true =>
      by_cases hw : w = ""
      · subst hw
        have hfa : truthy (some "") = false := by simp [truthy]
        simp only [hfa, Bool.false_and]
        constructor
        · intro h; exact Option.noConfusion h
        · rintro ⟨hv, hne, -, -⟩
          obtain rfl : "" = v := Option.some.inj hv
          exact absurd rfl hne
      · have htr : truthy (some w) = true := by simp [truthy, hw]
        by_cases hc : current = some w
        · subst hc
          simp only [htr, Bool.true_and, bne_self_eq_false]
          constructor
          · intro h; exact Option.noConfusion h
          · rintro ⟨hv, -, -, hcur⟩
            exact absurd hv hcur
        · have hbne : (current != some w) = true := bne_iff_ne.mpr hc
          simp only [htr, Bool.true_and, hbne]
          constructor
          · intro h
            obtain rfl : w = v := Option.some.inj h
            exact ⟨rfl, hw, trivial, hc⟩
          · exact fun h => h.1

/-- A ChangeSet with `isEmpty` true is the empty ChangeSet. -/
theorem isEmpty_iff (c : ChangeSet) :
    c.isEmpty = true ↔ c = emptyChangeSet := by
  obtain ⟨a, b, d, e⟩ := c
  simp [ChangeSet.isEmpty, emptyChangeSet, Option.isNone_iff_eq_none]
  tauto

/-! ### C1: ChangeSet construction -/

/-- C1: `update_repo_settings` builds the ChangeSet by adding an entry for a
field exactly when the desired value for that field is a present (truthy)
string, the governing enabled flag on the fetched settings is true, and the
current value differs from the desired value; and on Scenario A's repository
with desired squash title `PR_TITLE` and message `PR_BODY` the ChangeSet is
exactly the single squash-title entry `PR_TITLE`. -/
theorem C1_changeset_construction :
    (∀ (client : Client) (name : String) (t m mt mm : Option String)
        (d : Bool) (s : RepoSettings), client.fetch name = Except.ok s →
      (update_repo_settings client name t m mt mm d).changes
        = some (computeChanges s t m mt mm))
    ∧ (∀ (s : RepoSettings) (t m mt mm : Option String) (v : String),
      ((computeChanges s t m mt mm).squash_merge_commit_title = some v ↔
        t = some v ∧ v ≠ "" ∧ s.allow_squash_merge = true ∧
          s.squash_merge_commit_title ≠ some v)
      ∧ ((computeChanges s t m mt mm).squash_merge_commit_message = some v ↔
        m = some v ∧ v ≠ "" ∧ s.allow_squash_merge = true ∧
          s.squash_merge_commit_message ≠ some v)
      ∧ ((computeChanges s t m mt mm).merge_commit_title = some v ↔
        mt = some v ∧ v ≠ "" ∧ s.allow_merge_commit = true ∧
          s.merge_commit_title ≠ some v)
      ∧ ((computeChanges s t m mt mm).merge_commit_message = some v ↔
        mm = some v ∧ v ≠ "" ∧ s.allow_merge_commit = true ∧
          s.merge_commit_message ≠ some v))
    ∧ computeChanges scenarioARepo (some "PR_TITLE") (some "PR_BODY")
        none none
      = { squash_merge_commit_title := some "PR_TITLE"
          squash_merge_commit_message := none
          merge_commit_title := none, merge_commit_message := none } := by
  refine ⟨?_, ?_, ?_⟩
  · intro client name t m mt mm d s hf
    unfold update_repo_settings
    rw [hf]
    by_cases he : (computeChanges s t m mt mm).isEmpty = true
    · simp [he]
    · cases d
      · cases hedit : client.edit name (computeChanges s t m mt mm) <;>
          simp [he, hedit]
      · simp [he]
  · intro s t m mt mm v
    exact ⟨fieldEntry_some_iff t s.squash_merge_commit_title
        s.allow_squash_merge v,
      fieldEntry_some_iff m s.squash_merge_commit_message
        s.allow_squash_merge v,
      fieldEntry_some_iff mt s.merge_commit_title s.allow_merge_commit v,
      fieldEntry_some_iff mm s.merge_commit_message s.allow_merge_commit v⟩
  · decide

theorem C1_changeset_construction_witness :
    (update_repo_settings scenarioAClient "o/r" (some "PR_TITLE")
        (some "PR_BODY") none none true).changes
      = some (computeChanges scenarioARepo (some "PR_TITLE") (some "PR_BODY")
          none none) :=
  C1_changeset_construction.1 scenarioAClient "o/r" (some "PR_TITLE")
    (some "PR_BODY") none none true scenarioARepo rfl

/-! ### C2: failure containment in the batch -/

/-- C2 fails as stated: an error in the re-fetch of one repository's current
settings is not recorded as that repository's failed outcome — it propagates
out of `bulk_update_repos`, aborting the batch before the remaining
repository is processed and without returning the counters. -/
theorem C2_counterexample :
    bulk_update_repos fetchFailClient [badRepoSnapshot, goodRepoSnapshot]
      (some "PR_TITLE") none none none true = Except.error "boom" := by
  rfl

/-- C2 amended: a failure of the update call itself never aborts the batch —
whenever every settings re-fetch succeeds, `bulk_update_repos` returns its
`(succeeded, attempted)` counters no matter how the update endpoint
behaves. -/
theorem C2_update_failures_do_not_abort (client : Client)
    (repos : List RepoSettings)
    (t m mt mm : Option String) (d : Bool)
    (hfetch : ∀ n, ∃ s, client.fetch n = Except.ok s) :
    ∃ p, bulk_update_repos client repos t m mt mm d = Except.ok p := by
  suffices h : ∀ (l : List RepoSettings) (s0 t0 : Nat),
      ∃ p, bulkGo client t m mt mm d l s0 t0 = Except.ok p by
    exact h repos 0 0
  intro l
  induction l with
  | nil => exact fun s0 t0 => ⟨(s0, t0), rfl⟩
  | cons r rest ih =>
    intro s0 t0
    by_cases hskip :
        needsUpdateCheck r t m mt mm = false
    · simpa [bulkGo, hskip] using ih s0 t0
    · have hne : needsUpdateCheck r t m mt mm = true := by
        revert hskip
        cases needsUpdateCheck r t m mt mm <;> simp
      obtain ⟨s, hs⟩ := hfetch r.full_name
      have hout : ∃ b, (update_repo_settings client r.full_name t m mt mm
          d).outcome = Except.ok b := by
        unfold update_repo_settings
        rw [hs]
        by_cases he : (computeChanges s t m mt mm).isEmpty = true
        · exact ⟨true, by simp [he]⟩
        · cases d
          · cases hedit : client.edit r.full_name (computeChanges s t m mt mm)
            · exact ⟨false, by simp [he, hedit]⟩
            · exact ⟨true, by simp [he, hedit]⟩
          · exact ⟨true, by simp [he]⟩
      obtain ⟨b, hb⟩ := hout
      obtain ⟨p, hp⟩ := ih (if b then s0 + 1 else s0) (t0 + 1)
      exact ⟨p, by simp [bulkGo, hne, hb, hp]⟩

theorem C2_update_failures_do_not_abort_witness :
    ∃ p, bulk_update_repos editFailClient [badRepoSnapshot, goodRepoSnapshot]
      (some "PR_TITLE") none none none false = Except.ok p :=
  C2_update_failures_do_not_abort editFailClient
    [badRepoSnapshot, goodRepoSnapshot] (some "PR_TITLE") none none none
    false (fun _ => ⟨scenarioARepo, rfl⟩)

/-! ### C3: disabled merge methods are never touched -/

/-- C3: reconciliation never adds a squash-format entry when squash merge is
disabled, never adds a merge-commit-format entry when merge commits are
disabled, and the update patch leaves the rebase flag and every field
outside the four format fields unchanged. -/
theorem C3_disabled_methods_untouched (s : RepoSettings)
    (t m mt mm : Option String) (c : ChangeSet) :
    (s.allow_squash_merge = false →
      (computeChanges s t m mt mm).squash_merge_commit_title = none ∧
      (computeChanges s t m mt mm).squash_merge_commit_message = none)
    ∧ (s.allow_merge_commit = false →
      (computeChanges s t m mt mm).merge_commit_title = none ∧
      (computeChanges s t m mt mm).merge_commit_message = none)
    ∧ (applyChanges s c).allow_rebase_merge = s.allow_rebase_merge
    ∧ (applyChanges s c).name = s.name
    ∧ (applyChanges s c).full_name = s.full_name
    ∧ (applyChanges s c).is_archived = s.is_archived
    ∧ (applyChanges s c).is_fork = s.is_fork
    ∧ (applyChanges s c).allow_squash_merge = s.allow_squash_merge
    ∧ (applyChanges s c).allow_merge_commit = s.allow_merge_commit := by
  refine ⟨?_, ?_, rfl, rfl, rfl, rfl, rfl, rfl, rfl⟩
  · intro h
    exact ⟨by simp [computeChanges, h], by simp [computeChanges, h]⟩
  · intro h
    exact ⟨by simp [computeChanges, h], by simp [computeChanges, h]⟩

theorem C3_disabled_methods_untouched_witness :
    ((computeChanges bothDisabledRepo (some "PR_TITLE") (some "PR_BODY")
        (some "PR_TITLE") (some "PR_TITLE")).squash_merge_commit_title = none
      ∧ (computeChanges bothDisabledRepo (some "PR_TITLE") (some "PR_BODY")
        (some "PR_TITLE") (some "PR_TITLE")).squash_merge_commit_message
          = none)
    ∧ ((computeChanges bothDisabledRepo (some "PR_TITLE") (some "PR_BODY")
        (some "PR_TITLE") (some "PR_TITLE")).merge_commit_title = none
      ∧ (computeChanges bothDisabledRepo (some "PR_TITLE") (some "PR_BODY")
        (some "PR_TITLE") (some "PR_TITLE")).merge_commit_message = none)
    ∧ (applyChanges bothDisabledRepo
        ⟨some "PR_TITLE", none, none, none⟩).allow_rebase_merge
      = bothDisabledRepo.allow_rebase_merge :=
  let h := C3_disabled_methods_untouched bothDisabledRepo (some "PR_TITLE")
    (some "PR_BODY") (some "PR_TITLE") (some "PR_TITLE")
    ⟨some "PR_TITLE", none, none, none⟩
  ⟨h.1 rfl, h.2.1 rfl, h.2.2.1⟩

/-! ### C4: write-endpoint call discipline -/

/-- C4: in dry-run mode `repo.edit` is never invoked; in apply mode it is
invoked at most once per repository per run — zero times when the fetch
succeeds and the ChangeSet is empty, exactly once otherwise. -/
theorem C4_edit_call_discipline (client : Client) (name : String)
    (t m mt mm : Option String) :
    (update_repo_settings client name t m mt mm true).editCalls = 0
    ∧ (update_repo_settings client name t m mt mm false).editCalls ≤ 1
    ∧ (∀ s, client.fetch name = Except.ok s →
        (update_repo_settings client name t m mt mm false).editCalls
          = if (computeChanges s t m mt mm).isEmpty then 0 else 1) := by
  refine ⟨?_, ?_, ?_⟩
  · cases hf : client.fetch name with
    | error e => simp [update_repo_settings, hf]
    | ok s =>
      by_cases he : (computeChanges s t m mt mm).isEmpty = true <;>
        simp [update_repo_settings, hf, he]
  · cases hf : client.fetch name with
    | error e => simp [update_repo_settings, hf]
    | ok s =>
      by_cases he : (computeChanges s t m mt mm).isEmpty = true
      · simp [update_repo_settings, hf, he]
      · cases hedit : client.edit name (computeChanges s t m mt mm) <;>
          simp [update_repo_settings, hf, he, hedit]
  · intro s hf
    by_cases he : (computeChanges s t m mt mm).isEmpty = true
    · simp [update_repo_settings, hf, he]
    · cases hedit : client.edit name (computeChanges s t m mt mm) <;>
        simp [update_repo_settings, hf, he, hedit]

theorem C4_edit_call_discipline_witness :
    (update_repo_settings scenarioAClient "o/r" (some "PR_TITLE") none none
      none true).editCalls = 0
    ∧ (update_repo_settings scenarioAClient "o/r" (some "PR_TITLE") none none
      none false).editCalls
      = if (computeChanges scenarioARepo (some "PR_TITLE") none none
          none).isEmpty then 0 else 1 :=
  let h := C4_edit_call_discipline scenarioAClient "o/r" (some "PR_TITLE")
    none none none
  ⟨h.1, h.2.2 scenarioARepo rfl⟩

/-! ### C5, C6: the batch loop -/

/-- The batch loop is invariant under shifting its two counter
accumulators. -/
theorem bulkGo_shift (client : Client) (t m mt mm : Option String)
    (d : Bool) :
    ∀ (l : List RepoSettings) (s0 t0 : Nat),
    bulkGo client t m mt mm d l s0 t0
      = Except.map (fun p => (p.1 + s0, p.2 + t0))
          (bulkGo client t m mt mm d l 0 0) := by
  intro l
  induction l with
  | nil => intro s0 t0; simp [bulkGo, Except.map]
  | cons r rest ih =>
    intro s0 t0
    by_cases hskip : needsUpdateCheck r t m mt mm = true
    · simp only [bulkGo, hskip, Bool.not_true, Bool.false_eq_true, if_false]
      cases hout : (update_repo_settings client r.full_name t m mt mm
          d).outcome with
      | error e => simp [Except.map]
      | ok b =>
        dsimp only
        rw [ih (if b then s0 + 1 else s0) (t0 + 1),
          ih (if b then 0 + 1 else 0) (0 + 1)]
        cases hrest : bulkGo client t m mt mm d rest 0 0 with
        | error e => simp [Except.map]
        | ok p => cases b <;> simp [Except.map] <;> omega
    · have h0 : needsUpdateCheck r t m mt mm = false := by
        revert hskip; cases needsUpdateCheck r t m mt mm <;> simp
      simp only [bulkGo, h0, Bool.not_false, if_true]
      exact ih s0 t0

/-- C5: a repository is skipped (not attempted, reconcile never invoked)
exactly when the batch's skip test is false for it; otherwise it increments
`attempted` and increments `succeeded` iff its reconcile reports success;
and Scenario D's batch of three repositories yields `attempted = 2`,
`succeeded = 2` in both dry-run and apply mode. -/
theorem C5_skip_and_counting :
    (∀ (client : Client) (r : RepoSettings) (rest : List RepoSettings)
        (t m mt mm : Option String) (d : Bool),
      needsUpdateCheck r t m mt mm = false →
        bulk_update_repos client (r :: rest) t m mt mm d
          = bulk_update_repos client rest t m mt mm d)
    ∧ (∀ (client : Client) (r : RepoSettings) (rest : List RepoSettings)
        (t m mt mm : Option String) (d : Bool) (b : Bool),
      needsUpdateCheck r t m mt mm = true →
      (update_repo_settings client r.full_name t m mt mm d).outcome
        = Except.ok b →
        bulk_update_repos client (r :: rest) t m mt mm d
          = Except.map (fun p => (p.1 + (if b then 1 else 0), p.2 + 1))
              (bulk_update_repos client rest t m mt mm d))
    ∧ (bulk_update_repos scenarioDClient
        [repoNeedsChange, repoMatches, bothDisabledRepo]
        (some "PR_TITLE") (some "PR_BODY") none none true = Except.ok (2, 2)
      ∧ bulk_update_repos scenarioDClient
        [repoNeedsChange, repoMatches, bothDisabledRepo]
        (some "PR_TITLE") (some "PR_BODY") none none false
          = Except.ok (2, 2)) := by
  refine ⟨?_, ?_, rfl, rfl⟩
  · intro client r rest t m mt mm d h
    simp [bulk_update_repos, bulkGo, h]
  · intro client r rest t m mt mm d b h hout
    unfold bulk_update_repos
    simp only [bulkGo, h, Bool.not_true, Bool.false_eq_true, if_false]
    rw [hout]
    dsimp only
    rw [bulkGo_shift client t m mt mm d rest (if b then 0 + 1 else 0)
      (0 + 1)]

theorem C5_skip_and_counting_witness :
    bulk_update_repos scenarioDClient [bothDisabledRepo] (some "PR_TITLE")
        (some "PR_BODY") none none true
      = bulk_update_repos scenarioDClient [] (some "PR_TITLE")
        (some "PR_BODY") none none true
    ∧ bulk_update_repos scenarioDClient [repoNeedsChange] (some "PR_TITLE")
        (some "PR_BODY") none none false
      = Except.map (fun p => (p.1 + (if true then 1 else 0), p.2 + 1))
          (bulk_update_repos scenarioDClient [] (some "PR_TITLE")
            (some "PR_BODY") none none false) :=
  ⟨C5_skip_and_counting.1 scenarioDClient bothDisabledRepo []
      (some "PR_TITLE") (some "PR_BODY") none none true rfl,
    C5_skip_and_counting.2.1 scenarioDClient repoNeedsChange []
      (some "PR_TITLE") (some "PR_BODY") none none false true rfl rfl⟩

/-- C6: the batch outcome always satisfies
`0 ≤ succeeded ≤ attempted ≤ count(input snapshots)`. -/
theorem C6_batch_outcome_invariant (client : Client)
    (repos : List RepoSettings) (t m mt mm : Option String) (d : Bool)
    (s a : Nat)
    (h : bulk_update_repos client repos t m mt mm d = Except.ok (s, a)) :
    s ≤ a ∧ a ≤ repos.length := by
  induction repos generalizing s a with
  | nil =>
    have h0 : (Except.ok ((0 : Nat), (0 : Nat)) : Except String (Nat × Nat))
        = Except.ok (s, a) := h
    obtain ⟨rfl, rfl⟩ : 0 = s ∧ 0 = a := by
      cases h0; exact ⟨rfl, rfl⟩
    exact ⟨Nat.le_refl 0, Nat.zero_le 0⟩
  | cons r rest ih =>
    unfold bulk_update_repos at h
    by_cases hskip : needsUpdateCheck r t m mt mm = true
    · simp only [bulkGo, hskip, Bool.not_true, Bool.false_eq_true,
        if_false] at h
      cases hout : (update_repo_settings client r.full_name t m mt mm
          d).outcome with
      | error e => rw [hout] at h; exact absurd h (by simp)
      | ok b =>
        rw [hout] at h
        dsimp only at h
        rw [bulkGo_shift client t m mt mm d rest
          (if b then 0 + 1 else 0) (0 + 1)] at h
        cases hrest : bulkGo client t m mt mm d rest 0 0 with
        | error e => rw [hrest] at h; exact absurd h (by simp [Except.map])
        | ok p =>
          rw [hrest] at h
          obtain ⟨x, y⟩ := p
          have hx : x + (if b then 0 + 1 else 0) = s ∧ y + (0 + 1) = a := by
            simpa [Except.map] using h
          have hrec : x ≤ y ∧ y ≤ rest.length := ih x y hrest
          obtain ⟨hs, ha⟩ := hx
          cases b <;> simp at hs <;> simp [List.length] <;> omega
    · have h0 : needsUpdateCheck r t m mt mm = false := by
        revert hskip; cases needsUpdateCheck r t m mt mm <;> simp
      simp only [bulkGo, h0, Bool.not_false, if_true] at h
      have hrec := ih s a h
      exact ⟨hrec.1, Nat.le_succ_of_le hrec.2⟩

theorem C6_batch_outcome_invariant_witness :
    (2 : Nat) ≤ 2
      ∧ 2 ≤ [repoNeedsChange, repoMatches, bothDisabledRepo].length :=
  C6_batch_outcome_invariant scenarioDClient
    [repoNeedsChange, repoMatches, bothDisabledRepo]
    (some "PR_TITLE") (some "PR_BODY") none none false 2 2 rfl

/-! ### C7: idempotence of apply-mode reconciliation -/

/-- `applyChanges` acts fieldwise as `patchField`. -/
theorem applyChanges_eq (s : RepoSettings) (c : ChangeSet) :
    applyChanges s c
      = { s with
          squash_merge_commit_title :=
            patchField c.squash_merge_commit_title s.squash_merge_commit_title
          squash_merge_commit_message :=
            patchField c.squash_merge_commit_message
              s.squash_merge_commit_message
          merge_commit_title :=
            patchField c.merge_commit_title s.merge_commit_title
          merge_commit_message :=
            patchField c.merge_commit_message s.merge_commit_message } := rfl

/-- Patching one field with its own computed change leaves nothing further
to change. -/
theorem fieldIdem (desired current : Option String) (en : Bool) :
    (if truthy desired && en then
      (if patchField
          (if truthy desired && en then
            (if current != desired then desired else none) else none)
          current != desired then desired else none)
      else none) = none := by
  by_cases h : (truthy desired && en) = true
  · rw [if_pos h, if_pos h]
    by_cases hc : (current != desired) = true
    · rw [if_pos hc]
      cases desired with
      | none => simp [truthy] at h
      | some w => simp [patchField, bne_self_eq_false]
    · have hcf : (current != desired) = false := by
        revert hc; cases (current != desired) <;> simp
      rw [if_neg hc]
      simp [patchField, hcf]
  · rw [if_neg h]

/-- After a successful apply of the computed ChangeSet, recomputing the
ChangeSet against the patched settings yields the empty ChangeSet. -/
theorem computeChanges_applyChanges (s : RepoSettings)
    (t m mt mm : Option String) :
    computeChanges (applyChanges s (computeChanges s t m mt mm)) t m mt mm
      = emptyChangeSet := by
  rw [applyChanges_eq]
  dsimp only [computeChanges, emptyChangeSet]
  simp only [ChangeSet.mk.injEq]
  exact ⟨fieldIdem t s.squash_merge_commit_title s.allow_squash_merge,
    fieldIdem m s.squash_merge_commit_message s.allow_squash_merge,
    fieldIdem mt s.merge_commit_title s.allow_merge_commit,
    fieldIdem mm s.merge_commit_message s.allow_merge_commit⟩

/-- C7: if an apply-mode run completes successfully and no external change
occurs (the second fetch returns exactly the state left behind by the first
run), then the second apply-mode run computes an empty ChangeSet and reports
the "no change needed" successful no-op outcome without calling the write
endpoint. -/
theorem C7_apply_idempotent (w : RepoSettings) (name : String)
    (t m mt mm : Option String) (client1 client2 : Client)
    (_h1 : client1.fetch name = Except.ok w)
    (_hrun1 : (update_repo_settings client1 name t m mt mm false).outcome
      = Except.ok true)
    (h2 : client2.fetch name
      = Except.ok (if (computeChanges w t m mt mm).isEmpty then w
          else applyChanges w (computeChanges w t m mt mm))) :
    update_repo_settings client2 name t m mt mm false
      = ⟨Except.ok true, 0, some emptyChangeSet, none⟩ := by
  by_cases he : (computeChanges w t m mt mm).isEmpty = true
  · rw [if_pos he] at h2
    have hw : computeChanges w t m mt mm = emptyChangeSet :=
      (isEmpty_iff _).mp he
    unfold update_repo_settings
    rw [h2]
    simp [hw, ChangeSet.isEmpty, emptyChangeSet]
  · rw [if_neg he] at h2
    have hkey := computeChanges_applyChanges w t m mt mm
    unfold update_repo_settings
    rw [h2]
    simp [hkey, ChangeSet.isEmpty, emptyChangeSet]

theorem C7_apply_idempotent_witness :
    update_repo_settings scenarioAAfterClient "o/r" (some "PR_TITLE")
      (some "PR_BODY") none none false
      = ⟨Except.ok true, 0, some emptyChangeSet, none⟩ :=
  C7_apply_idempotent scenarioARepo "o/r" (some "PR_TITLE") (some "PR_BODY")
    none none scenarioAClient scenarioAAfterClient rfl rfl rfl

/-! ### C8: the squash-update predicate -/

/-- C8: with squash merge disabled `needs_squash_update` is false for all
desired values; with it enabled, `needs_squash_update t m` is false iff the
current squash title is `t` and the current squash message is `m`. -/
theorem C8_needs_squash_update_spec (s : RepoSettings) (t m : String) :
    (s.allow_squash_merge = false → s.needs_squash_update t m = false)
    ∧ (s.allow_squash_merge = true →
      (s.needs_squash_update t m = false ↔
        s.squash_merge_commit_title = some t
          ∧ s.squash_merge_commit_message = some m)) := by
  constructor
  · intro h; simp [RepoSettings.needs_squash_update, h]
  · intro h
    simp [RepoSettings.needs_squash_update, h, Bool.or_eq_false_iff,
      bne_eq_false_iff_eq]

theorem C8_needs_squash_update_spec_witness :
    (bothDisabledRepo.needs_squash_update "PR_TITLE" "PR_BODY" = false)
    ∧ (repoMatches.needs_squash_update "PR_TITLE" "PR_BODY" = false ↔
      repoMatches.squash_merge_commit_title = some "PR_TITLE"
        ∧ repoMatches.squash_merge_commit_message = some "PR_BODY") :=
  ⟨(C8_needs_squash_update_spec bothDisabledRepo "PR_TITLE" "PR_BODY").1 rfl,
    (C8_needs_squash_update_spec repoMatches "PR_TITLE" "PR_BODY").2 rfl⟩

/-! ### C9: update-failure reporting -/

/-- C9: when the apply-mode update call fails, the single-repository
reconcile returns `false` instead of raising; a not-found-class error
(its text contains `404`) is relabeled with the permissions/organization
hint; and in the batch such a repository increments `attempted` but not
`succeeded`. -/
theorem C9_update_failure_reporting (client : Client) (name : String)
    (t m mt mm : Option String) (s : RepoSettings) (e : String)
    (hf : client.fetch name = Except.ok s)
    (hne : (computeChanges s t m mt mm).isEmpty = false)
    (hedit : client.edit name (computeChanges s t m mt mm)
      = Except.error e) :
    ((update_repo_settings client name t m mt mm false).outcome
        = Except.ok false
      ∧ (strContains e "404" = true →
        (update_repo_settings client name t m mt mm false).failMessage
          = some notFoundHint))
    ∧ (∀ (r : RepoSettings) (rest : List RepoSettings),
        r.full_name = name → needsUpdateCheck r t m mt mm = true →
        bulk_update_repos client (r :: rest) t m mt mm false
          = Except.map (fun p => (p.1, p.2 + 1))
              (bulk_update_repos client rest t m mt mm false)) := by
  have hmain : update_repo_settings client name t m mt mm false
      = ⟨Except.ok false, 1, some (computeChanges s t m mt mm),
          some (if strContains e "404" then notFoundHint else e)⟩ := by
    unfold update_repo_settings
    rw [hf]
    simp [hne, hedit]
  refine ⟨⟨?_, ?_⟩, ?_⟩
  · rw [hmain]
  · intro h404
    rw [hmain]
    simp [h404]
  · intro r rest hname hneed
    unfold bulk_update_repos
    simp only [bulkGo, hneed, Bool.not_true, Bool.false_eq_true, if_false]
    rw [hname, hmain]
    dsimp only
    exact bulkGo_shift client t m mt mm false rest 0 (0 + 1)

theorem C9_update_failure_reporting_witness :
    ((update_repo_settings notFoundClient "o/r" (some "PR_TITLE") none none
        none false).outcome = Except.ok false
      ∧ (update_repo_settings notFoundClient "o/r" (some "PR_TITLE") none
        none none false).failMessage = some notFoundHint)
    ∧ bulk_update_repos notFoundClient [scenarioARepo] (some "PR_TITLE")
        none none none false
      = Except.map (fun p => (p.1, p.2 + 1))
          (bulk_update_repos notFoundClient [] (some "PR_TITLE") none none
            none false) :=
  let h := C9_update_failure_reporting notFoundClient "o/r"
    (some "PR_TITLE") none none none scenarioARepo "404 Not Found"
    rfl rfl rfl
  ⟨⟨h.1.1, h.1.2 (by decide)⟩, h.2 scenarioARepo [] rfl rfl⟩

/-! ### C10: the empty string is treated as absent -/

/-- C10: a desired format value equal to the empty string is treated
everywhere as absent — `update_repo_settings` never adds a ChangeSet entry
for a field whose desired value is the empty string, the batch skip test
treats an empty-string field exactly like an absent one, and the
`update-merge` command with all four desired fields empty strings fails its
configuration check (exit code 1). -/
theorem C10_empty_string_is_absent :
    (∀ (s : RepoSettings) (m mt mm : Option String),
      (computeChanges s (some "") m mt mm).squash_merge_commit_title = none)
    ∧ (∀ (s : RepoSettings) (t mt mm : Option String),
      (computeChanges s t (some "") mt mm).squash_merge_commit_message
        = none)
    ∧ (∀ (s : RepoSettings) (t m mm : Option String),
      (computeChanges s t m (some "") mm).merge_commit_title = none)
    ∧ (∀ (s : RepoSettings) (t m mt : Option String),
      (computeChanges s t m mt (some "")).merge_commit_message = none)
    ∧ (∀ (r : RepoSettings) (m mt mm : Option String),
      needsUpdateCheck r (some "") m mt mm = needsUpdateCheck r none m mt mm)
    ∧ (∀ (r : RepoSettings) (t mt mm : Option String),
      needsUpdateCheck r t (some "") mt mm = needsUpdateCheck r t none mt mm)
    ∧ (∀ (r : RepoSettings) (t m mm : Option String),
      needsUpdateCheck r t m (some "") mm = needsUpdateCheck r t m none mm)
    ∧ (∀ (r : RepoSettings) (t m mt : Option String),
      needsUpdateCheck r t m mt (some "") = needsUpdateCheck r t m mt none)
    ∧ update_merge_no_target (some "") (some "") (some "") (some "")
      = true := by
  refine ⟨?_, ?_, ?_, ?_, ?_, ?_, ?_, ?_, rfl⟩ <;> intro x a b c <;>
    simp [computeChanges, needsUpdateCheck, truthy]

end Ghm
